import Mathlib

/-!
A shallow embedding of the Solr document manager
(src/mongo_connector/doc_managers/solr_doc_manager.py) together with proofs
about its write-path pipeline: schema-aware field filtering (build_fields,
clean_doc), document transformation (transform_doc), the bulk commit buffer
(upsert, sendDocsBulk, commit) and the recovery query (get_last_doc).

Modelling conventions: Python dictionaries are association lists in
insertion order (real inputs are dicts, so their keys are distinct);
strings are lists of characters; the two external collaborators are
explicit parameters - the outcome of the one solr.add call a flush makes,
the backend answering the recovery query, and the parsed schema key lists.
Python exceptions are explicit: operations that can raise return an Except,
and buffer operations report whether an exception escaped to the caller.
-/

namespace MCSolr

abbrev Key := List Char

abbrev PyDict (W : Type) := List (Key × W)

/-- Nested values of an upstream Mongo document: an opaque scalar or a
nested object (a Python dict), as traversed by transform_doc. -/
inductive JVal (A : Type) where
  | atom (a : A)
  | obj (fields : List (Key × JVal A))

abbrev JDoc (A : Type) := PyDict (JVal A)

/-- Exceptions the modelled code can raise while subscripting documents:
KeyError from d[k] on a missing key, TypeError from subscripting a
non-dict, AttributeError from taking .keys() of a non-dict. -/
inductive PyErr where
  | keyError (k : Key)
  | typeError
  | attrError

/-- Python dict lookup: the binding of the key, if any. Also decides the
test k in d.keys(). -/
def dictGet {W : Type} (d : PyDict W) (k : Key) : Option W :=
  match d with
  | [] => none
  | (k2, v) :: rest => if k2 == k then some v else dictGet rest k

/-- The two field groups of the parsed schema answer: the keys of
result schema fields and of result schema dynamicFields, in insertion
order. -/
structure SolrSchema where
  fields : List Key
  dynamicFields : List Key

/-- DocManager._parse_fields: collect the keys of one field group in
order, skipping keys already collected. -/
def parse_fields (l : List Key) : List Key :=
  l.foldl (fun acc k => if acc.contains k then acc else acc ++ [k]) []

/-- The mutable attributes of a DocManager read and written by the write
path. field_list models the Python value verbatim: the assignment in
build_fields ends in a comma, so Python stores a one-element tuple -
modelled as a one-element list - whose single element is the list of exact
field names. -/
structure DMState (A : Type) where
  field_list : List (List Key)
  dynamic_field_list : List Key
  docs : List (JDoc A)
  commit_bulk_num : Nat
  commit_bulk_max : Nat

/-- DocManager.build_fields: store the parsed exact fields as a 1-tuple
and the parsed dynamic fields as a plain list. -/
def build_fields {A : Type} (schema : SolrSchema) (st : DMState A) : DMState A :=
  { st with
    field_list := [parse_fields schema.fields]
    dynamic_field_list := parse_fields schema.dynamicFields }

/-- DocManager.__init__, connection and timer plumbing aside: empty field
lists, then build_fields, then commit_bulk_max = 1000,
commit_bulk_num = 0 and an empty docs buffer. -/
def initState (A : Type) (schema : SolrSchema) : DMState A :=
  build_fields schema ⟨[], [], [], 0, 1000⟩

/-- Python regex class w on ASCII input: letters, digits, underscore. -/
def isWordChar (c : Char) : Bool :=
  c.isAlphanum || c == '_'

def optIsWord (o : Option Char) : Bool :=
  match o with
  | some c => isWordChar c
  | none => false

/-- Python regex word boundary at a position of the key: the two sides
disagree on word-ness, a string edge counting as non-word. -/
def boundaryAt (k : Key) (pos : Nat) : Bool :=
  Bool.xor (optIsWord (if pos == 0 then none else k[pos - 1]?)) (optIsWord k[pos]?)

/-- re.match of the regex the code compiles for a pattern starting with
the wildcard: interpolating the whole pattern into r'\w%s\b' puts the
pattern's own star right after the w, so the regex reads: zero or more
word characters, the literal suffix s, a word boundary; matching is
anchored at the start of the key and the rest of the key is
unconstrained. -/
def matchLeadingStar (s k : Key) : Bool :=
  (List.range (k.length + 1)).any (fun n =>
    ((k.take n).all isWordChar && ((k.drop n).take s.length == s))
      && boundaryAt k (n + s.length))

/-- re.match of the regex the code compiles for a trailing-wildcard
pattern t ++ [c] ++ star: interpolating into r'\b%s\w' makes the star
quantify c, the last literal character before it, so the regex reads: a
word boundary at the start, the literal t, zero or more copies of c, one
word character; the rest of the key is unconstrained. -/
def matchTrailingStar (t : Key) (c : Char) (k : Key) : Bool :=
  (boundaryAt k 0 && (k.take t.length == t))
    && (List.range (k.length + 1)).any (fun m =>
      ((k.drop t.length).take m).all (fun x => x == c)
        && optIsWord (k.drop t.length)[m]?)

/-- re.match of the regex compiled for a pattern with no wildcard (the
else branch): a word boundary, the literal pattern, one word character. -/
def matchPlain (p k : Key) : Bool :=
  (boundaryAt k 0 && (k.take p.length == p)) && optIsWord k[p.length]?

/-- The dynamic-field test of clean_doc: compile r'\w%s\b' when
field[0] == '*', else r'\b%s\w', and test re.match against the key.
Faithful for fields obeying the schema invariant stated in the source
comment (a wildcard only at the beginning or the end, the other
characters literal); on an empty field string the real code raises
IndexError, modelled as no match. -/
def dynMatch (p k : Key) : Bool :=
  match p with
  | [] => false
  | c :: s =>
    if c == '*' then
      matchLeadingStar s k
    else if (c :: s).getLast? == some '*' then
      match (c :: s).dropLast.getLast? with
      | some c2 => matchTrailingStar (c :: s).dropLast.dropLast c2 k
      | none => false
    else
      matchPlain (c :: s) k

/-- DocManager.clean_doc: if the field_list tuple is empty, return the
document unchanged; otherwise keep exactly the keys that are members of
the exact-field list (the tuple's single element) or match some dynamic
field. After build_fields the tuple always has one element. -/
def clean_doc {A W : Type} (st : DMState A) (doc : PyDict W) : PyDict W :=
  match st.field_list with
  | [] => doc
  | fl :: _ =>
    doc.filter (fun kv =>
      fl.contains kv.1 || st.dynamic_field_list.any (fun p => dynMatch p kv.1))

def kId : Key := "_id".data
def kIdOut : Key := "id".data
def kValue : Key := "value".data
def kData : Key := "data".data
def kAddress : Key := "address".data
def kStreet : Key := "street".data
def kCity : Key := "city".data
def kPostalCode : Key := "postalCode".data
def kDescription : Key := "description".data
def kEmail : Key := "email".data
def kFax : Key := "fax".data
def kName : Key := "name".data
def kPhone : Key := "phone".data
def kCsAddressStreet : Key := "cs_address_street".data
def kCsAddressCity : Key := "cs_address_city".data
def kCsAddressPostalCode : Key := "cs_address_postal_code".data
def kCsDescription : Key := "cs_description".data
def kCsEmail : Key := "cs_email".data
def kCsName : Key := "cs_name".data

/-- One optional leaf copy of transform_doc: when src is a key of m, one
binding of dst to its value, else nothing. -/
def optField {A : Type} (m : JDoc A) (src dst : Key) : JDoc A :=
  match dictGet m src with
  | some v => [(dst, v)]
  | none => []

/-- DocManager.transform_doc with Python's subscript errors explicit:
reading doc of '_id' raises KeyError when absent; the unconditional
access to doc value data raises KeyError when 'value' is absent,
TypeError when 'value' is a scalar, KeyError when 'data' is absent,
AttributeError when .keys() is taken of a scalar 'data' or of a scalar
'address'. Every other absence merely omits the output binding. Output
bindings follow the source's insertion order: _id, id, the three address
fields, description, email, fax, name, phone. -/
def transform_doc {A : Type} (d : JDoc A) : Except PyErr (JDoc A) :=
  match dictGet d kId with
  | none => Except.error (PyErr.keyError kId)
  | some idv =>
    match dictGet d kValue with
    | none => Except.error (PyErr.keyError kValue)
    | some (JVal.atom _) => Except.error PyErr.typeError
    | some (JVal.obj vf) =>
      match dictGet vf kData with
      | none => Except.error (PyErr.keyError kData)
      | some (JVal.atom _) => Except.error PyErr.attrError
      | some (JVal.obj df) =>
        match dictGet df kAddress with
        | some (JVal.atom _) => Except.error PyErr.attrError
        | some (JVal.obj af) =>
          Except.ok ([(kId, idv), (kIdOut, idv)]
            ++ optField af kStreet kCsAddressStreet
            ++ optField af kCity kCsAddressCity
            ++ optField af kPostalCode kCsAddressPostalCode
            ++ optField df kDescription kCsDescription
            ++ optField df kEmail kCsEmail
            ++ optField df kFax kFax
            ++ optField df kName kCsName
            ++ optField df kPhone kPhone)
        | none =>
          Except.ok ([(kId, idv), (kIdOut, idv)]
            ++ optField df kDescription kCsDescription
            ++ optField df kEmail kCsEmail
            ++ optField df kFax kFax
            ++ optField df kName kCsName
            ++ optField df kPhone kPhone)

/-- Outcome of the one solr.add call a flush makes. -/
inductive AddOutcome where
  | ok
  | solrError
  | otherError

inductive LogLevel where
  | info
  | error

/-- What one buffer operation did: the state afterwards, the payloads of
the solr.add calls it made, the log records it wrote, and whether an
exception escaped to the caller. -/
structure StepOut (A : Type) where
  st : DMState A
  calls : List (List (JDoc A))
  logs : List LogLevel
  raised : Bool

/-- DocManager.sendDocsBulk: nothing on an empty buffer; otherwise one
bulk solr.add of the whole buffer. On success clear the buffer, log at
info, reset the counter; on SolrError log at error and change nothing
else; on any other exception log at error and re-raise, changing nothing
else. -/
def sendDocsBulk {A : Type} (out : AddOutcome) (st : DMState A) : StepOut A :=
  match st.docs with
  | [] => ⟨st, [], [], false⟩
  | _ =>
    match out with
    | AddOutcome.ok =>
      ⟨{ st with docs := [], commit_bulk_num := 0 }, [st.docs], [LogLevel.info], false⟩
    | AddOutcome.solrError => ⟨st, [st.docs], [LogLevel.error], false⟩
    | AddOutcome.otherError => ⟨st, [st.docs], [LogLevel.error], true⟩

/-- DocManager.commit: flush through sendDocsBulk when the buffer is
non-empty, else do nothing. -/
def commit {A : Type} (out : AddOutcome) (st : DMState A) : StepOut A :=
  match st.docs with
  | [] => ⟨st, [], [], false⟩
  | _ => sendDocsBulk out st

/-- DocManager.upsert: transform, filter, append to the buffer, bump the
counter, and commit synchronously when the counter has reached
commit_bulk_max. An error escaping transform_doc leaves the buffer
untouched. -/
def upsert {A : Type} (out : AddOutcome) (st : DMState A) (d : JDoc A) : StepOut A :=
  match transform_doc d with
  | Except.error _ => ⟨st, [], [], true⟩
  | Except.ok td =>
    let st1 : DMState A :=
      { st with docs := st.docs ++ [clean_doc st td],
                commit_bulk_num := st.commit_bulk_num + 1 }
    if st1.commit_bulk_max ≤ st1.commit_bulk_num then commit out st1
    else ⟨st1, [], [], false⟩

/-- The parameters of one solr.search call: query, sort, row limit. -/
structure QueryParams where
  q : Key
  sortSpec : Option Key
  rows : Nat

/-- Result of one solr.search call: its document list, or a ValueError
raised while querying, or any other exception. -/
inductive SearchOutcome (R : Type) where
  | ok (docs : List R)
  | valueError
  | otherError

/-- The query get_last_doc issues: match everything, sort by _ts
descending, one row. -/
def lastDocQuery : QueryParams :=
  ⟨"*:*".data, some "_ts desc".data, 1⟩

/-- DocManager.get_last_doc: issue the recovery query; a ValueError gives
None, an empty result gives None, a non-empty result gives its first
document, and any other exception escapes to the caller. -/
def get_last_doc {R : Type} (backend : QueryParams → SearchOutcome R) :
    Except Unit (Option R) :=
  match backend lastDocQuery with
  | SearchOutcome.valueError => Except.ok none
  | SearchOutcome.otherError => Except.error ()
  | SearchOutcome.ok l =>
    match l with
    | [] => Except.ok none
    | d0 :: _ => Except.ok (some d0)

/-- Modelled from the spec: the matching rule of the claim, for a pattern
starting with the wildcard - the key must end with the suffix s preceded
by at least one word character. -/
def specLeadingStarKeep (s k : Key) : Bool :=
  decide (s.length + 1 ≤ k.length) && (k.drop (k.length - s.length) == s)
    && optIsWord k[k.length - s.length - 1]?

/-- Modelled from the spec: the amended C4 success condition - the
transform succeeds exactly when _id is present, value is present and an
object, value.data is present and an object, and address, when present in
value.data, is an object. -/
def specTransformSucceeds {A : Type} (d : JDoc A) : Bool :=
  (dictGet d kId).isSome &&
    (match dictGet d kValue with
     | some (JVal.obj vf) =>
       (match dictGet vf kData with
        | some (JVal.obj df) =>
          (match dictGet df kAddress with
           | some (JVal.obj _) => true
           | some (JVal.atom _) => false
           | none => true)
        | _ => false)
     | _ => false)

/-- The buffered-since-last-flush counter agrees with the number of
documents in the buffer. -/
def bufInv {A : Type} (st : DMState A) : Prop :=
  st.commit_bulk_num = st.docs.length

def emptySchema : SolrSchema := ⟨[], []⟩

/-- A one-key document used against the empty snapshot. -/
def dC1 : PyDict Nat := [(kName, 1)]

/-- A state whose buffer holds one document and whose counter is 1, about
to flush. -/
def stC2 : DMState Nat := ⟨[[]], [], [[(kId, JVal.atom 0)]], 1, 1000⟩

/-- A post-build state whose only schema content is the dynamic field
star-underscore-term. -/
def stC3 : DMState Nat := ⟨[[]], ["*_term".data], [], 0, 1000⟩

def kUnderscoreTerm : Key := "_term".data

/-- A document carrying only the identifier. -/
def dOnlyId : JDoc Nat := [(kId, JVal.atom 0)]

/-- The claim's document with value.data empty and no identifier. -/
def dNoIdExample : JDoc Nat := [(kValue, JVal.obj [(kData, JVal.obj [])])]

/-- The claim's transform example input. -/
def dC7 : JDoc (List Char) :=
  [(kId, JVal.atom "x1".data),
   (kValue, JVal.obj [(kData, JVal.obj
     [(kName, JVal.atom "Acme".data), (kPhone, JVal.atom "555".data)])])]

/-- A well-formed upstream document whose transform carries only the two
identifier bindings. -/
def dW5 : JDoc Nat := [(kId, JVal.atom 0), (kValue, JVal.obj [(kData, JVal.obj [])])]

/-- An initial state with threshold 3 used to witness the buffer claims. -/
def stW5 : DMState Nat := ⟨[], [], [], 0, 3⟩

/-- The transform of dW5: only the two identifier bindings. -/
def tdW5 : JDoc Nat := [(kId, JVal.atom 0), (kIdOut, JVal.atom 0)]

/-- A state with one buffered document used to witness the transport-failure
claim. -/
def stC6 : DMState Nat := ⟨[], [], [[(kName, JVal.atom 7)]], 1, 1000⟩

/-- A state with one buffered document used to witness the amended
rejection claim. -/
def stC2W : DMState Nat := ⟨[], [], [[(kPhone, JVal.atom 3)]], 1, 1000⟩

theorem head?_eq_get0 {α : Type} (l : List α) : l.head? = l[0]? := by
  cases l <;> simp

theorem boundaryAt_zero (k : Key) : boundaryAt k 0 = optIsWord k.head? := by
  unfold boundaryAt
  rw [head?_eq_get0]
  simp [optIsWord]

theorem boundaryAt_append (a r : Key) :
    boundaryAt (a ++ r) a.length = Bool.xor (optIsWord a.getLast?) (optIsWord r.head?) := by
  unfold boundaryAt
  congr 1
  · cases a with
    | nil => simp [optIsWord]
    | cons x xs =>
      have h0 : (((x :: xs).length == 0) = false) := by simp
      rw [h0]
      simp only [Bool.false_eq_true, if_false]
      rw [List.getElem?_append_left (by simp [Nat.sub_lt]), ← List.getLast?_eq_getElem?]
  · rw [List.getElem?_append_right (Nat.le_refl a.length), Nat.sub_self, ← head?_eq_get0]

theorem matchLeadingStar_iff (s k : Key) :
    matchLeadingStar s k = true ↔
      ∃ w r, k = w ++ s ++ r ∧ w.all isWordChar = true ∧
        Bool.xor (optIsWord (w ++ s).getLast?) (optIsWord r.head?) = true := by
  unfold matchLeadingStar
  rw [List.any_eq_true]
  constructor
  · rintro ⟨n, hn, hf⟩
    rw [List.mem_range, Nat.lt_succ_iff] at hn
    simp only [Bool.and_eq_true, beq_iff_eq] at hf
    obtain ⟨⟨hall, hseq⟩, hbound⟩ := hf
    have hd : k.drop n = s ++ k.drop (n + s.length) := by
      conv_lhs => rw [← List.take_append_drop s.length (k.drop n)]
      rw [hseq, List.drop_drop]
    have hk : k = k.take n ++ s ++ k.drop (n + s.length) := by
      rw [List.append_assoc, ← hd, List.take_append_drop]
    have hslen : s.length ≤ (k.drop n).length := by
      have h3 := congrArg List.length hseq
      rw [List.length_take] at h3
      omega
    have hlen : (k.take n ++ s).length = n + s.length := by
      rw [List.length_append, List.length_take]
      rw [List.length_drop] at hslen
      omega
    refine ⟨k.take n, k.drop (n + s.length), hk, hall, ?_⟩
    rw [← boundaryAt_append (k.take n ++ s) (k.drop (n + s.length)), hlen, ← hk]
    exact hbound
  · rintro ⟨w, r, rfl, hall, hb⟩
    refine ⟨w.length, ?_, ?_⟩
    · rw [List.mem_range, Nat.lt_succ_iff]
      have : (w ++ s ++ r).length = w.length + s.length + r.length := by
        simp [List.length_append]
        omega
      omega
    · simp only [Bool.and_eq_true, beq_iff_eq]
      refine ⟨⟨?_, ?_⟩, ?_⟩
      · rw [List.append_assoc, List.take_left]
        exact hall
      · rw [List.append_assoc, List.drop_left, List.take_left]
      · have hlen2 : w.length + s.length = (w ++ s).length := (List.length_append w s).symm
        rw [hlen2, boundaryAt_append]
        exact hb

theorem matchTrailingStar_iff (t : Key) (c : Char) (k : Key) :
    matchTrailingStar t c k = true ↔
      (optIsWord k.head? = true ∧
        ∃ m r, k = t ++ List.replicate m c ++ r ∧ optIsWord r.head? = true) := by
  unfold matchTrailingStar
  rw [boundaryAt_zero]
  simp only [Bool.and_eq_true, beq_iff_eq, List.any_eq_true, List.mem_range, Nat.lt_succ_iff]
  constructor
  · rintro ⟨⟨hw, hteq⟩, m, hm, hall, hword⟩
    have hmlt : m < (k.drop t.length).length := by
      by_contra hge
      rw [List.getElem?_eq_none (Nat.le_of_not_lt hge)] at hword
      simp [optIsWord] at hword
    have hrep : (k.drop t.length).take m = List.replicate m c := by
      rw [List.eq_replicate_iff]
      refine ⟨?_, ?_⟩
      · rw [List.length_take]
        exact Nat.min_eq_left (Nat.le_of_lt hmlt)
      · intro b hb
        exact beq_iff_eq.mp (List.all_eq_true.mp hall b hb)
    refine ⟨hw, m, (k.drop t.length).drop m, ?_, ?_⟩
    · conv_lhs => rw [← List.take_append_drop t.length k, hteq,
        ← List.take_append_drop m (k.drop t.length), hrep]
      rw [List.append_assoc]
    · rw [List.head?_drop]
      exact hword
  · rintro ⟨hw, m, r, rfl, hword⟩
    have htake : (List.replicate m c ++ r).take m = List.replicate m c := by
      have h := List.take_left (List.replicate m c) r
      rwa [List.length_replicate] at h
    have hget : (List.replicate m c ++ r)[m]? = r[0]? := by
      have h : (List.replicate m c ++ r)[m]? = r[m - (List.replicate m c).length]? :=
        List.getElem?_append_right (le_of_eq (List.length_replicate m c))
      rwa [List.length_replicate, Nat.sub_self] at h
    refine ⟨⟨hw, ?_⟩, m, ?_, ?_, ?_⟩
    · rw [List.append_assoc, List.take_left]
    · have : (t ++ List.replicate m c ++ r).length =
          t.length + m + r.length := by
        simp [List.length_append, List.length_replicate]
        omega
      omega
    · rw [List.append_assoc, List.drop_left, htake, List.all_eq_true]
      intro b hb
      rw [List.eq_of_mem_replicate hb]
      exact beq_self_eq_true c
    · rw [List.append_assoc, List.drop_left, hget, ← head?_eq_get0]
      exact hword

theorem clean_doc_keeps_key {W : Type} (p k : Key) (v : W) :
    clean_doc (⟨[[]], [p], [], 0, 1000⟩ : DMState Nat) [(k, v)] =
      if dynMatch p k then [(k, v)] else [] := by
  cases h : dynMatch p k <;> simp [clean_doc, h]

theorem dynMatch_leading (s k : Key) : dynMatch ('*' :: s) k = matchLeadingStar s k := rfl

theorem dynMatch_trailing (p k : Key) (h1 : p.head? ≠ some '*')
    (h2 : p.getLast? = some '*') :
    dynMatch p k =
      (match p.dropLast.getLast? with
       | some c2 => matchTrailingStar p.dropLast.dropLast c2 k
       | none => false) := by
  cases p with
  | nil => simp at h2
  | cons c s =>
    have hc : (c == '*') = false := by
      simp only [List.head?_cons, ne_eq, Option.some.injEq] at h1
      simp [h1]
    simp [dynMatch, hc, h2]

theorem filter_self_idem {α : Type} (p : α → Bool) (l : List α) :
    (l.filter p).filter p = l.filter p := by
  rw [List.filter_filter]
  simp

theorem bufInv_sendDocsBulk {A : Type} (out : AddOutcome) (st : DMState A)
    (h : bufInv st) : bufInv (sendDocsBulk out st).st := by
  obtain ⟨fls, dfl, ds, n, m⟩ := st
  cases ds with
  | nil => exact h
  | cons a l =>
    cases out with
    | ok => rfl
    | solrError => exact h
    | otherError => exact h

theorem bufInv_commit {A : Type} (out : AddOutcome) (st : DMState A)
    (h : bufInv st) : bufInv (commit out st).st := by
  obtain ⟨fls, dfl, ds, n, m⟩ := st
  cases ds with
  | nil => exact h
  | cons a l => exact bufInv_sendDocsBulk out ⟨fls, dfl, a :: l, n, m⟩ h

theorem bufInv_upsert {A : Type} (out : AddOutcome) (st : DMState A) (d : JDoc A)
    (h : bufInv st) : bufInv (upsert out st d).st := by
  obtain ⟨fls, dfl, ds, n, m⟩ := st
  unfold upsert
  cases htd : transform_doc d with
  | error e => exact h
  | ok td =>
    dsimp only
    have h1 : bufInv
        (⟨fls, dfl, ds ++ [clean_doc ⟨fls, dfl, ds, n, m⟩ td], n + 1, m⟩ : DMState A) := by
      unfold bufInv at h ⊢
      simp only [List.length_append, List.length_cons, List.length_nil] at h ⊢
      omega
    split
    · exact bufInv_commit out _ h1
    · exact h1

/-- C1: the claim says that filtering any document against an empty schema
snapshot is the identity (pass-through). The code disagrees: after
build_fields on a schema read returning no fields, field_list is the
1-tuple containing the empty list, which is truthy, so the pass-through
guard never fires and clean_doc drops every key. The second conjunct shows
the guard would behave as the spec intends if field_list really were
empty, confirming the trailing-comma tuple as the slip. -/
theorem c1_empty_snapshot_not_passthrough :
    clean_doc (initState Nat emptySchema) dC1 = [] ∧
    clean_doc (⟨[], [], [], 0, 1000⟩ : DMState Nat) dC1 = dC1 :=
  ⟨rfl, rfl⟩

/-- C2 counterexample: on a SolrError during a flush of a one-document
buffer, the code logs at error severity but leaves the document buffered
and the counter at 1, contradicting the claim that the buffer is empty
with the counter reset afterwards. -/
theorem c2_rejected_batch_stays_buffered :
    (sendDocsBulk AddOutcome.solrError stC2).logs = [LogLevel.error] ∧
    (sendDocsBulk AddOutcome.solrError stC2).raised = false ∧
    (sendDocsBulk AddOutcome.solrError stC2).st.docs = [[(kId, JVal.atom 0)]] ∧
    (sendDocsBulk AddOutcome.solrError stC2).st.commit_bulk_num = 1 :=
  ⟨rfl, rfl, rfl, rfl⟩

/-- C2 amended: when the backend reports a rejection (SolrError) during a
flush of a non-empty buffer, the flush logs the failure at error severity
and swallows the exception, but the buffer contents and the counter are
left unchanged - the rejected batch stays buffered and is retried by the
next flush. -/
theorem c2_amended_rejection_logs_and_keeps_buffer {A : Type} (st : DMState A)
    (h : st.docs ≠ []) :
    sendDocsBulk AddOutcome.solrError st = ⟨st, [st.docs], [LogLevel.error], false⟩ := by
  obtain ⟨fls, dfl, ds, n, m⟩ := st
  cases ds with
  | nil => exact absurd rfl h
  | cons a l => rfl

theorem c2_amended_witness :
    sendDocsBulk AddOutcome.solrError stC2W =
      ⟨stC2W, [stC2W.docs], [LogLevel.error], false⟩ :=
  c2_amended_rejection_logs_and_keeps_buffer stC2W (by simp [stC2W])

/-- C3 counterexample: under the dynamic pattern star-underscore-term, the
filter keeps the key made of just the suffix, although the suffix is not
preceded by any word character there, so the spec's matching rule
(transcribed as specLeadingStarKeep) rejects that key. -/
theorem c3_spec_rule_breaks_on_underscore_term :
    clean_doc stC3 [(kUnderscoreTerm, (1 : Nat))] = [(kUnderscoreTerm, 1)] ∧
    specLeadingStarKeep "_term".data kUnderscoreTerm = false :=
  ⟨by decide, by decide⟩

/-- C3 amended: the filter keeps a key under a dynamic pattern exactly when
the compiled regex matches. For a pattern starting with the wildcard, the
key must consist of a possibly empty run of word characters, then the
suffix, then a word boundary, the rest being unconstrained (the wildcard
becomes a quantifier on the regex class w and matching is anchored only at
the start). For a trailing-wildcard pattern, the key must start with the
pattern minus its last two characters, then zero or more repeats of the
character just before the wildcard, then one word character. The claim's
four concrete examples do hold. -/
theorem c3_amended_wildcard_semantics :
    (∀ (W : Type) (p k : Key) (v : W),
      clean_doc (⟨[[]], [p], [], 0, 1000⟩ : DMState Nat) [(k, v)] =
        if dynMatch p k then [(k, v)] else []) ∧
    (∀ s k, dynMatch ('*' :: s) k = matchLeadingStar s k) ∧
    (∀ p k, p.head? ≠ some '*' → p.getLast? = some '*' →
      dynMatch p k =
        (match p.dropLast.getLast? with
         | some c2 => matchTrailingStar p.dropLast.dropLast c2 k
         | none => false)) ∧
    (∀ s k, matchLeadingStar s k = true ↔
      ∃ w r, k = w ++ s ++ r ∧ w.all isWordChar = true ∧
        Bool.xor (optIsWord (w ++ s).getLast?) (optIsWord r.head?) = true) ∧
    (∀ t c k, matchTrailingStar t c k = true ↔
      (optIsWord k.head? = true ∧
        ∃ m r, k = t ++ List.replicate m c ++ r ∧ optIsWord r.head? = true)) ∧
    dynMatch "cs_*".data "cs_name".data = true ∧
    dynMatch "cs_*".data "cs".data = false ∧
    dynMatch "*_term".data "en_target_term".data = true ∧
    dynMatch "*_term".data "term".data = false :=
  ⟨fun W p k v => clean_doc_keeps_key p k v,
   fun s k => dynMatch_leading s k,
   fun p k h1 h2 => dynMatch_trailing p k h1 h2,
   fun s k => matchLeadingStar_iff s k,
   fun t c k => matchTrailingStar_iff t c k,
   by decide, by decide, by decide, by decide⟩

theorem c3_amended_witness :
    matchLeadingStar "_term".data "en_target_term".data = true ∧
    dynMatch "cs_*".data "cs_name".data =
      matchTrailingStar "cs".data '_' "cs_name".data := by
  constructor
  · exact (c3_amended_wildcard_semantics.2.2.2.1 "_term".data "en_target_term".data).mpr
      ⟨"en_target".data, [], by decide, by decide, by decide⟩
  · exact c3_amended_wildcard_semantics.2.2.1 "cs_*".data "cs_name".data
      (by decide) (by decide)

/-- C4 counterexample: a document that carries the mandatory identifier
but no value field still makes transform_doc fail (KeyError on value),
contradicting the claim that the transform fails only when the identifier
path is absent and that a missing intermediate object is non-fatal. -/
theorem c4_transform_fails_with_id_present :
    dictGet dOnlyId kId = some (JVal.atom 0) ∧
    transform_doc dOnlyId = Except.error (PyErr.keyError kValue) :=
  ⟨rfl, rfl⟩

/-- C4 amended: transform_doc succeeds exactly when the identifier is
present, value is present and an object, value.data is present and an
object, and address, when present in value.data, is an object; only a
missing address or missing leaf fields are non-fatal absences. The
claim's own example without an identifier still fails with KeyError on
the identifier key. -/
theorem c4_amended_transform_failure_conditions :
    (∀ (A : Type) (d : JDoc A), (transform_doc d).isOk = specTransformSucceeds d) ∧
    transform_doc dNoIdExample = Except.error (PyErr.keyError kId) := by
  refine ⟨?_, rfl⟩
  intro A d
  unfold transform_doc specTransformSucceeds
  cases h1 : dictGet d kId with
  | none => rfl
  | some idv =>
    cases h2 : dictGet d kValue with
    | none => rfl
    | some v =>
      cases v with
      | atom a => rfl
      | obj vf =>
        dsimp only
        cases h3 : dictGet vf kData with
        | none => rfl
        | some dv =>
          cases dv with
          | atom a => rfl
          | obj df =>
            dsimp only
            cases h4 : dictGet df kAddress with
            | none => rfl
            | some av =>
              cases av with
              | atom a => rfl
              | obj af => rfl

/-- C5: upsert appends the transformed, filtered document and increments
the counter, flushing synchronously exactly when the counter reaches the
threshold: below the threshold it returns the updated state with no
backend call, and with threshold 3 from an empty buffer, three upserts
make exactly one bulk-add call carrying exactly 3 documents, leaving the
buffer empty and the counter at zero. -/
theorem c5_buffer_threshold :
    (∀ (A : Type) (out : AddOutcome) (st : DMState A) (d td : JDoc A),
      transform_doc d = Except.ok td →
      st.commit_bulk_num + 1 < st.commit_bulk_max →
      upsert out st d =
        ⟨⟨st.field_list, st.dynamic_field_list, st.docs ++ [clean_doc st td],
          st.commit_bulk_num + 1, st.commit_bulk_max⟩, [], [], false⟩) ∧
    (∀ (A : Type) (st0 : DMState A) (d1 d2 d3 td1 td2 td3 : JDoc A),
      st0.docs = [] → st0.commit_bulk_num = 0 → st0.commit_bulk_max = 3 →
      transform_doc d1 = Except.ok td1 →
      transform_doc d2 = Except.ok td2 →
      transform_doc d3 = Except.ok td3 →
      (upsert AddOutcome.ok st0 d1).calls = [] ∧
      (upsert AddOutcome.ok (upsert AddOutcome.ok st0 d1).st d2).calls = [] ∧
      (upsert AddOutcome.ok
        (upsert AddOutcome.ok (upsert AddOutcome.ok st0 d1).st d2).st d3).calls.map
          List.length = [3] ∧
      (upsert AddOutcome.ok
        (upsert AddOutcome.ok (upsert AddOutcome.ok st0 d1).st d2).st d3).st.docs = [] ∧
      (upsert AddOutcome.ok
        (upsert AddOutcome.ok
          (upsert AddOutcome.ok st0 d1).st d2).st d3).st.commit_bulk_num = 0) := by
  constructor
  · intro A out st d td h1 h2
    obtain ⟨fls, dfl, ds, n, m⟩ := st
    unfold upsert
    rw [h1]
    dsimp only
    rw [if_neg (Nat.not_le.mpr h2)]
  · intro A st0 d1 d2 d3 td1 td2 td3 h0 hn hm h1 h2 h3
    obtain ⟨fls, dfl, ds, n, m⟩ := st0
    dsimp only at h0 hn hm
    subst h0
    subst hn
    subst hm
    simp [upsert, commit, sendDocsBulk, h1, h2, h3]

theorem c5_threshold_witness :
    (upsert AddOutcome.ok stW5 dW5).calls = [] ∧
    (upsert AddOutcome.ok (upsert AddOutcome.ok stW5 dW5).st dW5).calls = [] ∧
    (upsert AddOutcome.ok
      (upsert AddOutcome.ok (upsert AddOutcome.ok stW5 dW5).st dW5).st dW5).calls.map
        List.length = [3] ∧
    (upsert AddOutcome.ok
      (upsert AddOutcome.ok (upsert AddOutcome.ok stW5 dW5).st dW5).st dW5).st.docs = [] ∧
    (upsert AddOutcome.ok
      (upsert AddOutcome.ok
        (upsert AddOutcome.ok stW5 dW5).st dW5).st dW5).st.commit_bulk_num = 0 :=
  c5_buffer_threshold.2 Nat stW5 dW5 dW5 dW5 tdW5 tdW5 tdW5 rfl rfl rfl rfl rfl rfl

/-- C6: on any backend failure during a flush other than a SolrError
rejection, the exception propagates to the caller and the whole state -
buffer contents and counter included - is retained unchanged, so a retry
can resubmit the same batch; the call that failed carried the buffered
batch. -/
theorem c6_transport_failure_keeps_buffer {A : Type} (st : DMState A)
    (h : st.docs ≠ []) :
    (sendDocsBulk AddOutcome.otherError st).raised = true ∧
    (sendDocsBulk AddOutcome.otherError st).st = st ∧
    (sendDocsBulk AddOutcome.otherError st).logs = [LogLevel.error] ∧
    (sendDocsBulk AddOutcome.otherError st).calls = [st.docs] := by
  obtain ⟨fls, dfl, ds, n, m⟩ := st
  cases ds with
  | nil => exact absurd rfl h
  | cons a l => exact ⟨rfl, rfl, rfl, rfl⟩

theorem c6_transport_failure_witness :
    (sendDocsBulk AddOutcome.otherError stC6).raised = true ∧
    (sendDocsBulk AddOutcome.otherError stC6).st = stC6 ∧
    (sendDocsBulk AddOutcome.otherError stC6).logs = [LogLevel.error] ∧
    (sendDocsBulk AddOutcome.otherError stC6).calls = [stC6.docs] :=
  c6_transport_failure_keeps_buffer stC6 (by simp [stC6])

/-- C7: transform_doc on the claim's example document yields exactly the
four bindings _id, id, cs_name and phone, in the code's insertion order,
with the identifier stored under both _id and id and no placeholders for
the absent source fields. -/
theorem c7_transform_example :
    transform_doc dC7 = Except.ok
      [(kId, JVal.atom "x1".data), (kIdOut, JVal.atom "x1".data),
       (kCsName, JVal.atom "Acme".data), (kPhone, JVal.atom "555".data)] :=
  rfl

/-- C8: filtering is idempotent - for every document and every state,
applying clean_doc twice is the same as applying it once, because the
keep decision of a key depends only on the key and the state. -/
theorem c8_filter_idempotent {A W : Type} (st : DMState A) (d : PyDict W) :
    clean_doc st (clean_doc st d) = clean_doc st d := by
  obtain ⟨fls, dfl, ds, n, m⟩ := st
  cases fls with
  | nil => rfl
  | cons fl rest => exact filter_self_idem _ _

/-- C9: get_last_doc answers the fixed recovery query - everything, sorted
by the timestamp field descending, one row - and returns absence on a
ValueError or an empty result, the first returned document on a non-empty
result, and propagates any other backend failure. -/
theorem c9_recovery_query {R : Type} (backend : QueryParams → SearchOutcome R) :
    (backend lastDocQuery = SearchOutcome.valueError →
      get_last_doc backend = Except.ok none) ∧
    (∀ l, backend lastDocQuery = SearchOutcome.ok l →
      get_last_doc backend = Except.ok l.head?) ∧
    (backend lastDocQuery = SearchOutcome.otherError →
      get_last_doc backend = Except.error ()) := by
  refine ⟨?_, ?_, ?_⟩
  · intro h
    unfold get_last_doc
    rw [h]
  · intro l h
    unfold get_last_doc
    rw [h]
    cases l <;> rfl
  · intro h
    unfold get_last_doc
    rw [h]

theorem c9_recovery_query_witness :
    get_last_doc (fun _ => (SearchOutcome.valueError : SearchOutcome Nat)) =
      Except.ok none ∧
    get_last_doc (fun _ => (SearchOutcome.ok [5] : SearchOutcome Nat)) =
      Except.ok (some 5) ∧
    get_last_doc (fun _ => (SearchOutcome.otherError : SearchOutcome Nat)) =
      Except.error () :=
  ⟨(c9_recovery_query (fun _ => SearchOutcome.valueError)).1 rfl,
   (c9_recovery_query (fun _ => SearchOutcome.ok [5])).2.1 [5] rfl,
   (c9_recovery_query (fun _ => SearchOutcome.otherError)).2.2 rfl⟩

/-- C10: the buffered-since-last-flush counter always equals the number of
documents in the buffer: it holds at construction and is preserved by
upsert, by sendDocsBulk under every outcome (success, rejection,
transport failure), and by commit. -/
theorem c10_counter_equals_buffer_length :
    (∀ (A : Type) (schema : SolrSchema), bufInv (initState A schema)) ∧
    (∀ (A : Type) (out : AddOutcome) (st : DMState A) (d : JDoc A),
      bufInv st → bufInv (upsert out st d).st) ∧
    (∀ (A : Type) (out : AddOutcome) (st : DMState A),
      bufInv st → bufInv (sendDocsBulk out st).st) ∧
    (∀ (A : Type) (out : AddOutcome) (st : DMState A),
      bufInv st → bufInv (commit out st).st) :=
  ⟨fun A schema => rfl,
   fun A out st d h => bufInv_upsert out st d h,
   fun A out st h => bufInv_sendDocsBulk out st h,
   fun A out st h => bufInv_commit out st h⟩

theorem c10_invariant_witness :
    bufInv (upsert AddOutcome.ok (initState Nat emptySchema) dW5).st :=
  c10_counter_equals_buffer_length.2.1 Nat AddOutcome.ok (initState Nat emptySchema) dW5 rfl

end MCSolr
